import Mathlib

/-
  Verification development for xscreensaver-systemd
  (src/xscreensaver-systemd.c).

  The daemon's mutable state is the global `struct handler_ctx` (lines
  243-250: lock_message, lock_fd, is_inhibited) together with the global
  SLIST of `struct inhibit_entry` (lines 252-258, each entry holding only
  a uint32 cookie) and the `static int use_rand48` local of
  xscreensaver_get_cookie (line 376).  We embed that state as
  `DaemonState`.  C `int` / `time_t` values are modelled as `Int`
  (overflow of is_inhibited would need 2^31 concurrent inhibitors and is
  out of scope); uint32 cookies are `Nat` reduced mod 2^32; uint64 bus
  timeouts are `Nat` with UINT64_MAX explicit.

  External effects (running xscreensaver-command, closing the lock fd,
  warnx logging, the sleep-manager Inhibit bus call) are recorded in an
  event list.  Results that come from the outside world (sd_bus return
  codes, the lock fd carried in the reply, entropy) are inputs gathered
  in small environment structures.
-/

namespace Xss

/-- Result of an sd_bus_message_read call: either the parsed value or a
negative error code. -/
inductive ReadResult (α : Type) where
  | ok (v : α)
  | err (rc : Int)
  deriving DecidableEq, Repr

/-- The xscreensaver-command actions the daemon invokes. -/
inductive Cmd where
  | suspend
  | deactivate
  deriving DecidableEq, Repr

/-- The warnx log messages relevant to the claims. -/
inductive WarnMsg where
  | readFailed
  | inhibitSleepFailed
  | noLockFd
  | noContextLock
  | reRegisterFailed
  deriving DecidableEq, Repr

/-- Observable external effects of a handler invocation. -/
inductive Event where
  | command (c : Cmd)
  | closeFd (fd : Int)
  | warn (m : WarnMsg)
  | sleepInhibitCall
  deriving DecidableEq, Repr

/-- The daemon's mutable state: `struct handler_ctx` (lock_message
modelled by its NULL-ness, lock_fd, is_inhibited), the inhibit_head
SLIST (head = most recently inserted), and the static use_rand48 flag of
xscreensaver_get_cookie. -/
structure DaemonState where
  lock_message : Bool
  lock_fd : Int
  is_inhibited : Int
  inhibit_head : List Nat
  use_rand48 : Bool
  deriving DecidableEq, Repr

/-- `static struct handler_ctx global_ctx = { NULL, NULL, -1 };` plus
the empty SLIST and use_rand48 = 0. -/
def initState : DaemonState :=
  { lock_message := false, lock_fd := -1, is_inhibited := 0,
    inhibit_head := [], use_rand48 := false }

/-- Outside-world responses seen by xscreensaver_register_sleep_lock:
the sd_bus_call_method return code, the sd_bus_message_read "h" return
code and the fd it yields on success. -/
structure AcquireEnv where
  callRc : Int
  readRc : Int
  readFd : Int
  deriving DecidableEq, Repr

/-- xscreensaver_register_sleep_lock (lines 278-312): call the sleep
manager's Inhibit method; on success read the lock fd from the reply and
store it (LOCKED); on any failure warn and leave the state unchanged.
Returns the C return code together with the new state and the emitted
events. -/
def xscreensaver_register_sleep_lock (env : AcquireEnv) (s : DaemonState) :
    Int × DaemonState × List Event :=
  if env.callRc < 0 then
    (env.callRc, s, [Event.sleepInhibitCall, Event.warn WarnMsg.inhibitSleepFailed])
  else
    let fd : Int := if env.readRc < 0 then -1 else env.readFd
    if env.readRc < 0 ∨ fd < 0 then
      (env.readRc, s, [Event.sleepInhibitCall, Event.warn WarnMsg.noLockFd])
    else
      (env.readRc, { s with lock_message := true, lock_fd := fd },
       [Event.sleepInhibitCall])

/-- xscreensaver_systemd_handler (lines 318-370): the PrepareForSleep
signal handler.  Unparseable payload: warn and return 1.  before_sleep
true: run "suspend"; if a lock is held close its fd and drop it, else
warn.  before_sleep false: run "deactivate" then re-register the sleep
lock, warning if that returned an error.  Always returns 1. -/
def xscreensaver_systemd_handler (payload : ReadResult Bool)
    (env : AcquireEnv) (s : DaemonState) : Int × DaemonState × List Event :=
  match payload with
  | ReadResult.err _ => (1, s, [Event.warn WarnMsg.readFailed])
  | ReadResult.ok true =>
      if s.lock_message then
        (1, { s with lock_message := false, lock_fd := -1 },
         [Event.command Cmd.suspend, Event.closeFd s.lock_fd])
      else
        (1, s, [Event.command Cmd.suspend, Event.warn WarnMsg.noContextLock])
  | ReadResult.ok false =>
      let r := xscreensaver_register_sleep_lock env s
      if r.1 < 0 then
        (1, r.2.1,
         Event.command Cmd.deactivate :: r.2.2 ++ [Event.warn WarnMsg.reRegisterFailed])
      else
        (1, r.2.1, Event.command Cmd.deactivate :: r.2.2)

/-- Entropy sources available to xscreensaver_get_cookie: whether
getentropy succeeds, the value it would fill in, and the value lrand48
would return.  Both are reduced mod 2^32 (cookie is uint32). -/
structure EntropyEnv where
  getentropyOk : Bool
  entropyVal : Nat
  lrand48Val : Nat
  deriving DecidableEq, Repr

/-- xscreensaver_get_cookie (lines 372-398): use lrand48 if the static
fallback flag is set; otherwise try getentropy, and on its failure seed
lrand48, set the flag, and use lrand48.  Returns the cookie and the new
flag value. -/
def xscreensaver_get_cookie (use_rand48 : Bool) (env : EntropyEnv) :
    Nat × Bool :=
  if use_rand48 then (env.lrand48Val % 2 ^ 32, true)
  else if env.getentropyOk then (env.entropyVal % 2 ^ 32, false)
  else (env.lrand48Val % 2 ^ 32, true)

/-- What a method handler hands back to the bus: a cookie reply
(Inhibit), an empty reply (UnInhibit), or a bare negative return with no
reply sent (parse failure). -/
inductive MethodReply where
  | replyCookie (c : Nat)
  | replyEmpty
  | errorReturn (rc : Int)
  deriving DecidableEq, Repr

/-- xscreensaver_method_inhibit (lines 400-425): parse "ss"; on failure
return the error.  Otherwise allocate an entry with a fresh cookie,
SLIST_INSERT_HEAD it, increment is_inhibited, and reply with the cookie.
The parsed application name and reason are only logged, never stored. -/
def xscreensaver_method_inhibit (payload : ReadResult (String × String))
    (env : EntropyEnv) (s : DaemonState) : DaemonState × MethodReply :=
  match payload with
  | ReadResult.err rc => (s, MethodReply.errorReturn rc)
  | ReadResult.ok _ =>
      let r := xscreensaver_get_cookie s.use_rand48 env
      ({ s with use_rand48 := r.2,
                inhibit_head := r.1 :: s.inhibit_head,
                is_inhibited := s.is_inhibited + 1 },
       MethodReply.replyCookie r.1)

/-- Remove the first entry whose cookie equals c: the effect of the
SLIST_FOREACH / SLIST_REMOVE / break loop of lines 442-454. -/
def removeFirstCookie (c : Nat) : List Nat → List Nat
  | [] => []
  | x :: xs => if x = c then xs else x :: removeFirstCookie c xs

/-- xscreensaver_method_uninhibit (lines 427-461): parse "u"; on failure
return the error (no reply).  Otherwise remove the first entry matching
the cookie if any, decrementing is_inhibited and clamping it at zero,
and reply empty whether or not an entry was found. -/
def xscreensaver_method_uninhibit (payload : ReadResult Nat)
    (s : DaemonState) : DaemonState × MethodReply :=
  match payload with
  | ReadResult.err rc => (s, MethodReply.errorReturn rc)
  | ReadResult.ok cookie =>
      if cookie ∈ s.inhibit_head then
        let n := s.is_inhibited - 1
        ({ s with inhibit_head := removeFirstCookie cookie s.inhibit_head,
                  is_inhibited := if n < 0 then 0 else n },
         MethodReply.replyEmpty)
      else (s, MethodReply.replyEmpty)

/-- One dispatch delivered by the event loop: an Inhibit method call, an
UnInhibit method call, or a PrepareForSleep signal. -/
inductive Dispatch where
  | inhibit (payload : ReadResult (String × String)) (env : EntropyEnv)
  | uninhibit (payload : ReadResult Nat)
  | sleep (payload : ReadResult Bool) (env : AcquireEnv)

/-- State transition of one dispatch (ignoring the emitted events and
replies). -/
def dispatchStep (s : DaemonState) : Dispatch → DaemonState
  | Dispatch.inhibit p env => (xscreensaver_method_inhibit p env s).1
  | Dispatch.uninhibit p => (xscreensaver_method_uninhibit p s).1
  | Dispatch.sleep p env => (xscreensaver_systemd_handler p env s).2.1

/-- State reached from startup after a sequence of dispatches. -/
def runDispatches (ds : List Dispatch) : DaemonState :=
  ds.foldl dispatchStep initState

/-- The counter/registry invariant: is_inhibited equals the number of
live entries in the SLIST. -/
def ctxInvariant (s : DaemonState) : Prop :=
  s.is_inhibited = (s.inhibit_head.length : Int)

instance (s : DaemonState) : Decidable (ctxInvariant s) := by
  unfold ctxInvariant; infer_instance

/-- Post-poll fail-safe of the event loop (lines 632-643): if
is_inhibited is non-zero and at least 50 seconds have elapsed since the
last deactivate, run "deactivate" and record the time.  Returns the
events and the new last_deactivate_time. -/
def failsafeStep (count now last : Int) : List Event × Int :=
  if count ≠ 0 then
    if 50 ≤ now - last then ([Event.command Cmd.deactivate], now)
    else ([], last)
  else ([], last)

/-- Times at which the fail-safe fires over a sequence of loop wake-ups,
each wake-up given as (is_inhibited value, current time). -/
def firedTimes : List (Int × Int) → Int → List Int
  | [], _ => []
  | w :: rest, last =>
      let r := failsafeStep w.1 w.2 last
      if r.1 = [] then firedTimes rest r.2
      else w.2 :: firedTimes rest r.2

/-- uint64_t maximum, the sd_bus "wait indefinitely" timeout value. -/
def UINT64_MAX : Nat := 2 ^ 64 - 1

/-- Poll-deadline computation of the event loop (lines 609-626): both
timeouts zero gives zero; both UINT64_MAX gives poll_timeout = -1 which,
stored in a uint64_t, is UINT64_MAX; otherwise the smaller of the two
divided by 1000000; finally clamped at 50000. -/
def computePollTimeout (timeout user_timeout : Nat) : Nat :=
  let p : Nat :=
    if timeout = 0 ∧ user_timeout = 0 then 0
    else if timeout = UINT64_MAX ∧ user_timeout = UINT64_MAX then UINT64_MAX
    else min timeout user_timeout / 1000000
  if 50000 < p then 50000 else p

/-- A combined deadline before clamping: no wait, wait indefinitely, or
a finite duration. -/
inductive Deadline where
  | noWait
  | indefinite
  | finite (n : Nat)
  deriving DecidableEq, Repr

/-- Combination rule as the spec states it: zero when both connections
report no wait needed, indefinite when both report indefinite, otherwise
the smaller of the two reported values. -/
def combineTimeouts (t u : Nat) : Deadline :=
  if t = 0 ∧ u = 0 then Deadline.noWait
  else if t = UINT64_MAX ∧ u = UINT64_MAX then Deadline.indefinite
  else Deadline.finite (min t u)

/-- Clamp a combined deadline to at most 50 time units, converting a
finite microsecond duration to the poll scale (divide by 1000000, as the
code does) and capping the result at 50000; an indefinite deadline is
capped to 50000 outright. -/
def clampDeadline : Deadline → Nat
  | Deadline.noWait => 0
  | Deadline.indefinite => 50000
  | Deadline.finite n => min (n / 1000000) 50000

/-
  Helper lemmas.
-/

theorem removeFirstCookie_decomp (c : Nat) (l : List Nat) (h : c ∈ l) :
    ∃ pre post, l = pre ++ c :: post ∧ c ∉ pre ∧
      removeFirstCookie c l = pre ++ post := by
  induction l with
  | nil => cases h
  | cons x xs ih =>
      by_cases hx : x = c
      · subst hx
        exact ⟨[], xs, rfl, List.not_mem_nil x, by simp [removeFirstCookie]⟩
      · have hm : c ∈ xs := by
          rcases List.mem_cons.mp h with h1 | h1
          · exact absurd h1.symm hx
          · exact h1
        obtain ⟨pre, post, h1, h2, h3⟩ := ih hm
        refine ⟨x :: pre, post, by simp [h1], ?_, ?_⟩
        · intro hc
          rcases List.mem_cons.mp hc with h4 | h4
          · exact hx h4.symm
          · exact h2 h4
        · simp [removeFirstCookie, hx, h3]

theorem removeFirstCookie_length_of_mem (c : Nat) (l : List Nat)
    (h : c ∈ l) : (removeFirstCookie c l).length + 1 = l.length := by
  obtain ⟨pre, post, h1, _, h3⟩ := removeFirstCookie_decomp c l h
  subst h1
  simp [h3]
  omega

theorem length_le_removeFirstCookie (c : Nat) (l : List Nat) :
    l.length ≤ (removeFirstCookie c l).length + 1 := by
  induction l with
  | nil => simp [removeFirstCookie]
  | cons x xs ih =>
      by_cases hx : x = c
      · simp [removeFirstCookie, hx]
      · simp only [removeFirstCookie, if_neg hx, List.length_cons]
        omega

theorem handler_fixes_registry (payload : ReadResult Bool)
    (env : AcquireEnv) (s : DaemonState) :
    (xscreensaver_systemd_handler payload env s).2.1.is_inhibited =
        s.is_inhibited ∧
    (xscreensaver_systemd_handler payload env s).2.1.inhibit_head =
        s.inhibit_head := by
  rcases payload with v | rc
  · rcases v with _ | _ <;>
      · simp only [xscreensaver_systemd_handler,
          xscreensaver_register_sleep_lock]
        split_ifs <;> simp
  · simp [xscreensaver_systemd_handler]

theorem dispatchStep_preserves_invariant (s : DaemonState) (d : Dispatch)
    (h : ctxInvariant s) : ctxInvariant (dispatchStep s d) := by
  rcases d with ⟨p, env⟩ | p | ⟨p, env⟩
  · rcases p with v | rc
    · unfold ctxInvariant at h ⊢
      simp only [dispatchStep, xscreensaver_method_inhibit, List.length_cons]
      push_cast
      omega
    · exact h
  · rcases p with c | rc
    · unfold ctxInvariant at h ⊢
      simp only [dispatchStep, xscreensaver_method_uninhibit]
      by_cases hm : c ∈ s.inhibit_head
      · have hlen := removeFirstCookie_length_of_mem c s.inhibit_head hm
        simp only [if_pos hm]
        have hpos : 0 < s.inhibit_head.length :=
          List.length_pos.mpr (List.ne_nil_of_mem hm)
        split_ifs with h0
        · exfalso; omega
        · simp_all
          omega
      · simp only [if_neg hm]
        exact h
    · exact h
  · unfold ctxInvariant at h ⊢
    have := handler_fixes_registry p env s
    simp only [dispatchStep, this.1, this.2]
    exact h

theorem runDispatches_invariant_aux (ds : List Dispatch) :
    ∀ s : DaemonState, ctxInvariant s →
      ctxInvariant (ds.foldl dispatchStep s) := by
  induction ds with
  | nil => intro s h; exact h
  | cons d rest ih =>
      intro s h
      exact ih _ (dispatchStep_preserves_invariant s d h)

theorem firedTimes_chain_aux (wakes : List (Int × Int)) :
    ∀ last : Int,
      List.Chain' (fun a b => 50 ≤ b - a) (firedTimes wakes last) ∧
      ∀ t, (firedTimes wakes last).head? = some t → 50 ≤ t - last := by
  induction wakes with
  | nil =>
      intro last
      exact ⟨List.chain'_nil, by intro t h; simp [firedTimes] at h⟩
  | cons w rest ih =>
      intro last
      by_cases h1 : w.1 ≠ 0
      · by_cases h2 : 50 ≤ w.2 - last
        · have hstep : failsafeStep w.1 w.2 last =
              ([Event.command Cmd.deactivate], w.2) := by
            simp [failsafeStep, h1, h2]
          constructor
          · simp only [firedTimes, hstep]
            rw [if_neg (List.cons_ne_nil _ _), List.chain'_cons']
            exact ⟨fun y hy => (ih w.2).2 y hy, (ih w.2).1⟩
          · intro t ht
            simp only [firedTimes, hstep] at ht
            rw [if_neg (List.cons_ne_nil _ _)] at ht
            simp at ht
            omega
        · have hstep : failsafeStep w.1 w.2 last = ([], last) := by
            simp [failsafeStep, h1, h2]
          constructor
          · simp only [firedTimes, hstep, if_pos rfl]
            exact (ih last).1
          · intro t ht
            simp only [firedTimes, hstep, if_pos rfl] at ht
            exact (ih last).2 t ht
      · have hstep : failsafeStep w.1 w.2 last = ([], last) := by
          simp [failsafeStep, h1]
        constructor
        · simp only [firedTimes, hstep, if_pos rfl]
          exact (ih last).1
        · intro t ht
          simp only [firedTimes, hstep, if_pos rfl] at ht
          exact (ih last).2 t ht

/-
  Claim theorems.
-/

/-- C1: in every state reachable from startup by Inhibit, UnInhibit and
PrepareForSleep dispatches, is_inhibited equals the number of live
entries in the inhibit SLIST, is never negative, and the code's
inhibited test (is_inhibited non-zero) holds exactly when the count is
positive; moreover every single dispatch preserves the
counter-equals-length invariant. -/
theorem C1_inhibited_count_invariant :
    (∀ ds : List Dispatch,
       ctxInvariant (runDispatches ds) ∧
       0 ≤ (runDispatches ds).is_inhibited ∧
       ((runDispatches ds).is_inhibited ≠ 0 ↔
         0 < (runDispatches ds).is_inhibited)) ∧
    (∀ (s : DaemonState) (d : Dispatch),
       ctxInvariant s → ctxInvariant (dispatchStep s d)) := by
  constructor
  · intro ds
    have h : ctxInvariant (runDispatches ds) :=
      runDispatches_invariant_aux ds initState (by decide)
    unfold ctxInvariant at h
    exact ⟨h, by omega, by omega⟩
  · exact dispatchStep_preserves_invariant

/-- C1 witness: the invariant holds at startup and is preserved by a
concrete UnInhibit dispatch. -/
theorem C1_inhibited_count_invariant_witness :
    ctxInvariant initState ∧
    ctxInvariant (dispatchStep initState
      (Dispatch.uninhibit (ReadResult.ok 0))) :=
  ⟨by decide,
   C1_inhibited_count_invariant.2 initState
     (Dispatch.uninhibit (ReadResult.ok 0)) (by decide)⟩

/-- C2: delivering PrepareForSleep(true) runs the "suspend" command
exactly once and returns success; if a lock is held its fd is explicitly
closed and the state becomes UNLOCKED (lock_message dropped, lock_fd
-1) with the registry untouched; if no lock is held a warning is logged
and the state is unchanged. -/
theorem C2_prepare_sleep_true (env : AcquireEnv) (s : DaemonState) :
    (xscreensaver_systemd_handler (ReadResult.ok true) env s).1 = 1 ∧
    ((xscreensaver_systemd_handler (ReadResult.ok true) env s).2.2.count
        (Event.command Cmd.suspend) = 1) ∧
    (s.lock_message = true →
       Event.closeFd s.lock_fd ∈
         (xscreensaver_systemd_handler (ReadResult.ok true) env s).2.2 ∧
       (xscreensaver_systemd_handler (ReadResult.ok true)
           env s).2.1.lock_message = false ∧
       (xscreensaver_systemd_handler (ReadResult.ok true)
           env s).2.1.lock_fd = -1 ∧
       (xscreensaver_systemd_handler (ReadResult.ok true)
           env s).2.1.is_inhibited = s.is_inhibited ∧
       (xscreensaver_systemd_handler (ReadResult.ok true)
           env s).2.1.inhibit_head = s.inhibit_head) ∧
    (s.lock_message = false →
       (xscreensaver_systemd_handler (ReadResult.ok true) env s).2.1 = s ∧
       Event.warn WarnMsg.noContextLock ∈
         (xscreensaver_systemd_handler (ReadResult.ok true) env s).2.2) := by
  by_cases hl : s.lock_message <;>
    simp [xscreensaver_systemd_handler, hl, List.count_cons]

/-- C2 witness: with a held lock on fd 7, delivering
PrepareForSleep(true) closes fd 7. -/
theorem C2_prepare_sleep_true_witness :
    ({ lock_message := true, lock_fd := 7, is_inhibited := 0,
       inhibit_head := [], use_rand48 := false } :
        DaemonState).lock_message = true ∧
    Event.closeFd 7 ∈
      (xscreensaver_systemd_handler (ReadResult.ok true)
        { callRc := 0, readRc := 0, readFd := 0 }
        { lock_message := true, lock_fd := 7, is_inhibited := 0,
          inhibit_head := [], use_rand48 := false }).2.2 :=
  ⟨rfl,
   ((C2_prepare_sleep_true
      { callRc := 0, readRc := 0, readFd := 0 }
      { lock_message := true, lock_fd := 7, is_inhibited := 0,
        inhibit_head := [], use_rand48 := false }).2.2.1 rfl).1⟩

/-- C3: delivering PrepareForSleep(false) runs the "deactivate" command
exactly once, makes exactly one sleep-manager Inhibit call, and returns
success; if the acquire succeeds (method call ok, lock fd read ok and
non-negative) the state stores the lock (LOCKED), otherwise the state is
unchanged and a warning is among the emitted events. -/
theorem C3_prepare_sleep_false (env : AcquireEnv) (s : DaemonState) :
    (xscreensaver_systemd_handler (ReadResult.ok false) env s).1 = 1 ∧
    ((xscreensaver_systemd_handler (ReadResult.ok false) env s).2.2.count
        (Event.command Cmd.deactivate) = 1) ∧
    ((xscreensaver_systemd_handler (ReadResult.ok false) env s).2.2.count
        Event.sleepInhibitCall = 1) ∧
    (0 ≤ env.callRc → 0 ≤ env.readRc → 0 ≤ env.readFd →
       (xscreensaver_systemd_handler (ReadResult.ok false) env s).2.1 =
         { s with lock_message := true, lock_fd := env.readFd }) ∧
    (¬(0 ≤ env.callRc ∧ 0 ≤ env.readRc ∧ 0 ≤ env.readFd) →
       (xscreensaver_systemd_handler (ReadResult.ok false) env s).2.1 = s ∧
       ∃ m, Event.warn m ∈
         (xscreensaver_systemd_handler (ReadResult.ok false) env s).2.2) := by
  by_cases hc : env.callRc < 0
  · simp only [xscreensaver_systemd_handler,
      xscreensaver_register_sleep_lock, if_pos hc, if_pos hc]
    refine ⟨by simp [hc], by simp [List.count_cons, hc], ?_, ?_, ?_⟩
    · simp [List.count_cons, hc]
    · intro h1 _ _; omega
    · intro _
      exact ⟨by simp [hc], WarnMsg.inhibitSleepFailed, by simp [hc]⟩
  · by_cases hr : env.readRc < 0
    · simp only [xscreensaver_systemd_handler,
        xscreensaver_register_sleep_lock, if_neg hc, if_pos hr]
      refine ⟨by simp [hr], by simp [List.count_cons, hr], ?_, ?_, ?_⟩
      · simp [List.count_cons, hr]
      · intro _ h2 _; omega
      · intro _
        exact ⟨by simp [hr], WarnMsg.noLockFd, by simp [hr]⟩
    · by_cases hf : env.readFd < 0
      · have hguard : env.readRc < 0 ∨
            (if env.readRc < 0 then (-1 : Int) else env.readFd) < 0 := by
          right; simp [hr, hf]
        simp only [xscreensaver_systemd_handler,
          xscreensaver_register_sleep_lock, if_neg hc, if_pos hguard]
        have hr2 : ¬env.readRc < 0 := hr
        refine ⟨by simp [hr2], by simp [List.count_cons, hr2], ?_, ?_, ?_⟩
        · simp [List.count_cons, hr2]
        · intro _ _ h3; omega
        · intro _
          refine ⟨by simp [hr2], WarnMsg.noLockFd, by simp [hr2]⟩
      · have hguard : ¬(env.readRc < 0 ∨
            (if env.readRc < 0 then (-1 : Int) else env.readFd) < 0) := by
          simp [hr, hf]
        simp only [xscreensaver_systemd_handler,
          xscreensaver_register_sleep_lock, if_neg hc, if_neg hguard]
        have hr2 : ¬env.readRc < 0 := hr
        refine ⟨by simp [hr2], by simp [List.count_cons, hr2], ?_, ?_, ?_⟩
        · simp [List.count_cons, hr2]
        · intro _ _ _; simp [hr2, hr]
        · intro habs; exact absurd ⟨by omega, by omega, by omega⟩ habs

/-- C3 witness: with a successful acquire environment (all return codes
zero, lock fd 5) the state after PrepareForSleep(false) is LOCKED on
fd 5. -/
theorem C3_prepare_sleep_false_witness :
    (0 : Int) ≤ 0 ∧ (0 : Int) ≤ 5 ∧
    (xscreensaver_systemd_handler (ReadResult.ok false)
        { callRc := 0, readRc := 0, readFd := 5 } initState).2.1 =
      { initState with lock_message := true, lock_fd := 5 } :=
  ⟨by decide, by decide,
   (C3_prepare_sleep_false { callRc := 0, readRc := 0, readFd := 5 }
      initState).2.2.2.1 (by decide) (by decide) (by decide)⟩

/-- C4: a successfully parsed Inhibit(applicationName, reason) call
inserts exactly one new entry at the head of the SLIST, keyed by the
cookie freshly generated by xscreensaver_get_cookie, increments
is_inhibited by exactly one, and replies with that cookie; this holds
for every prior state, in particular one already containing entries
created by an identical (applicationName, reason) pair — entries store
only cookies, so identical pairs cannot collide or block. -/
theorem C4_inhibit_inserts_one (app reason : String) (env : EntropyEnv)
    (s : DaemonState) :
    (xscreensaver_method_inhibit (ReadResult.ok (app, reason))
        env s).1.inhibit_head =
      (xscreensaver_get_cookie s.use_rand48 env).1 :: s.inhibit_head ∧
    (xscreensaver_method_inhibit (ReadResult.ok (app, reason))
        env s).1.inhibit_head.length = s.inhibit_head.length + 1 ∧
    (xscreensaver_method_inhibit (ReadResult.ok (app, reason))
        env s).1.is_inhibited = s.is_inhibited + 1 ∧
    (xscreensaver_method_inhibit (ReadResult.ok (app, reason)) env s).2 =
      MethodReply.replyCookie (xscreensaver_get_cookie s.use_rand48 env).1 := by
  simp [xscreensaver_method_inhibit]

/-- C5: an UnInhibit whose cookie matches no live entry is a no-op: the
whole state (registry and count, hence no underflow) is unchanged and an
empty success reply is sent.  Instantiated at a cookie just released,
this makes the second UnInhibit after an Inhibit/UnInhibit pair leave
the state unchanged. -/
theorem C5_uninhibit_unknown_noop (c : Nat) (s : DaemonState)
    (h : c ∉ s.inhibit_head) :
    xscreensaver_method_uninhibit (ReadResult.ok c) s =
      (s, MethodReply.replyEmpty) := by
  simp [xscreensaver_method_uninhibit, h]

/-- C5 witness: releasing cookie 1 against the startup state (no live
entries) leaves the state unchanged. -/
theorem C5_uninhibit_unknown_noop_witness :
    (1 : Nat) ∉ initState.inhibit_head ∧
    xscreensaver_method_uninhibit (ReadResult.ok 1) initState =
      (initState, MethodReply.replyEmpty) :=
  ⟨by decide, C5_uninhibit_unknown_noop 1 initState (by decide)⟩

/-- C6 counterexample: an UnInhibit call whose payload fails to parse
(sd_bus_message_read returns -EINVAL) returns the negative error code
without sending the empty success reply, so the claim that every
UnInhibit call replies with an empty success acknowledgment, including
on a malformed payload, is false on the code (lines 436-440 return rc
before the reply at line 460 is reached). -/
theorem C6_uninhibit_reply_counterexample :
    (xscreensaver_method_uninhibit (ReadResult.err (-22)) initState).2 ≠
      MethodReply.replyEmpty := by
  decide

/-- C6 (amended): every UnInhibit call whose payload parses successfully
replies with an empty success acknowledgment, whether or not any entry
matches the cookie; a malformed payload instead produces a bare negative
error return and no empty success reply. -/
theorem C6_uninhibit_reply_amended (c : Nat) (rc : Int) (s : DaemonState) :
    (xscreensaver_method_uninhibit (ReadResult.ok c) s).2 =
      MethodReply.replyEmpty ∧
    (xscreensaver_method_uninhibit (ReadResult.err rc) s).2 =
      MethodReply.errorReturn rc := by
  constructor
  · simp only [xscreensaver_method_uninhibit]
    split_ifs <;> rfl
  · rfl

/-- C7: after each poll wake-up the fail-safe runs "deactivate" exactly
when the inhibited count is positive and at least 50 seconds have
elapsed since the last fail-safe action, updating the recorded timestamp
exactly then; consequently, over any sequence of wake-ups the times at
which the fail-safe fires are always at least 50 seconds apart. -/
theorem C7_failsafe_heartbeat (count now last : Int) (h : 0 ≤ count) :
    ((failsafeStep count now last).1 = [Event.command Cmd.deactivate] ↔
       0 < count ∧ 50 ≤ now - last) ∧
    (0 < count ∧ 50 ≤ now - last →
       (failsafeStep count now last).2 = now) ∧
    (¬(0 < count ∧ 50 ≤ now - last) →
       (failsafeStep count now last).1 = [] ∧
       (failsafeStep count now last).2 = last) ∧
    (∀ (wakes : List (Int × Int)) (l0 : Int),
       List.Chain' (fun a b => 50 ≤ b - a) (firedTimes wakes l0)) := by
  refine ⟨?_, ?_, ?_, fun wakes l0 => (firedTimes_chain_aux wakes l0).1⟩
  · unfold failsafeStep
    split_ifs with h1 h2
    · exact ⟨fun _ => ⟨by omega, h2⟩, fun _ => rfl⟩
    · exact ⟨fun habs => by simp at habs, fun hp => absurd hp.2 h2⟩
    · exact ⟨fun habs => by simp at habs, fun hp => absurd hp.1 (by omega)⟩
  · intro ⟨hpos, h50⟩
    unfold failsafeStep
    rw [if_pos (by omega), if_pos h50]
  · intro hneg
    unfold failsafeStep
    split_ifs with h1 h2
    · exact absurd ⟨by omega, h2⟩ hneg
    · exact ⟨rfl, rfl⟩
    · exact ⟨rfl, rfl⟩

/-- C7 witness: with one inhibitor and 60 seconds elapsed the fail-safe
fires. -/
theorem C7_failsafe_heartbeat_witness :
    (0 : Int) ≤ 1 ∧
    ((failsafeStep 1 60 0).1 = [Event.command Cmd.deactivate] ↔
       (0 : Int) < 1 ∧ (50 : Int) ≤ 60 - 0) :=
  ⟨by decide, (C7_failsafe_heartbeat 1 60 0 (by decide)).1⟩

/-- C8: the poll deadline equals the clamp, at 50 time units, of the
combination of the two per-connection timeouts — zero when both report
no wait needed, indefinite when both report indefinite, otherwise the
smaller of the two — and it therefore never exceeds 50 time units
(50000 on the code's scale; the clamp stage converts a finite
microsecond duration by the code's division and caps the indefinite
marker outright). -/
theorem C8_poll_deadline (t u : Nat) :
    computePollTimeout t u = clampDeadline (combineTimeouts t u) ∧
    computePollTimeout t u ≤ 50000 := by
  have hmax : UINT64_MAX = 18446744073709551615 := by norm_num [UINT64_MAX]
  constructor
  · simp only [computePollTimeout, combineTimeouts, hmax]
    split_ifs <;> simp only [clampDeadline] <;> omega
  · simp only [computePollTimeout, hmax]
    split_ifs <;> omega

/-- C9: a PrepareForSleep delivery whose payload cannot be parsed as a
boolean only logs a warning: the whole daemon state (lock, registry,
count) is unchanged, no xscreensaver-command action is invoked, and the
handler returns 1 (success) to the transport. -/
theorem C9_malformed_sleep_signal (rc : Int) (env : AcquireEnv)
    (s : DaemonState) :
    xscreensaver_systemd_handler (ReadResult.err rc) env s =
      (1, s, [Event.warn WarnMsg.readFailed]) ∧
    ∀ c, Event.command c ∉
      (xscreensaver_systemd_handler (ReadResult.err rc) env s).2.2 := by
  refine ⟨rfl, ?_⟩
  intro c
  simp [xscreensaver_systemd_handler]

/-- C10: if two or more live entries carry the same cookie, one
UnInhibit with that cookie removes exactly the first match in SLIST
iteration order (the list splits as pre ++ cookie :: post with no match
in pre, and the result is pre ++ post), shrinking the list by exactly
one and, under the reachable counter-equals-length invariant,
decrementing is_inhibited by exactly one; and no UnInhibit call of any
kind ever removes more than one entry. -/
theorem C10_cookie_collision_single_removal (c : Nat) (s : DaemonState)
    (h2 : 2 ≤ s.inhibit_head.count c)
    (hinv : s.is_inhibited = (s.inhibit_head.length : Int)) :
    (∃ pre post, s.inhibit_head = pre ++ c :: post ∧ c ∉ pre ∧
       (xscreensaver_method_uninhibit (ReadResult.ok c)
           s).1.inhibit_head = pre ++ post) ∧
    (xscreensaver_method_uninhibit (ReadResult.ok c)
        s).1.inhibit_head.length + 1 = s.inhibit_head.length ∧
    (xscreensaver_method_uninhibit (ReadResult.ok c) s).1.is_inhibited =
      s.is_inhibited - 1 ∧
    (xscreensaver_method_uninhibit (ReadResult.ok c) s).2 =
      MethodReply.replyEmpty ∧
    (∀ (p : ReadResult Nat) (s2 : DaemonState),
       s2.inhibit_head.length ≤
         (xscreensaver_method_uninhibit p s2).1.inhibit_head.length + 1) := by
  have hm : c ∈ s.inhibit_head := by
    by_contra hnm
    rw [List.count_eq_zero_of_not_mem hnm] at h2
    omega
  have hlen := removeFirstCookie_length_of_mem c s.inhibit_head hm
  have hpos : 0 < s.inhibit_head.length :=
    List.length_pos.mpr (List.ne_nil_of_mem hm)
  refine ⟨?_, ?_, ?_, ?_, ?_⟩
  · obtain ⟨pre, post, hd1, hd2, hd3⟩ :=
      removeFirstCookie_decomp c s.inhibit_head hm
    exact ⟨pre, post, hd1, hd2, by simp [xscreensaver_method_uninhibit, hm, hd3]⟩
  · simp only [xscreensaver_method_uninhibit, if_pos hm]
    exact hlen
  · simp only [xscreensaver_method_uninhibit, if_pos hm]
    have : ¬s.is_inhibited - 1 < 0 := by omega
    simp [this]
  · simp [xscreensaver_method_uninhibit, hm]
  · intro p s2
    rcases p with c2 | rc2
    · simp only [xscreensaver_method_uninhibit]
      by_cases hm2 : c2 ∈ s2.inhibit_head
      · simp only [if_pos hm2]
        exact length_le_removeFirstCookie c2 s2.inhibit_head
      · simp [if_neg hm2]
    · simp [xscreensaver_method_uninhibit]

/-- C10 witness: from a state with two live entries both carrying cookie
5, one UnInhibit(5) leaves exactly one entry. -/
theorem C10_cookie_collision_single_removal_witness :
    2 ≤ (({ lock_message := false, lock_fd := -1, is_inhibited := 2,
            inhibit_head := [5, 5], use_rand48 := false } :
          DaemonState).inhibit_head.count 5) ∧
    (xscreensaver_method_uninhibit (ReadResult.ok 5)
        { lock_message := false, lock_fd := -1, is_inhibited := 2,
          inhibit_head := [5, 5], use_rand48 := false }).1.inhibit_head.length
        + 1 =
      ({ lock_message := false, lock_fd := -1, is_inhibited := 2,
         inhibit_head := [5, 5], use_rand48 := false } :
        DaemonState).inhibit_head.length :=
  ⟨by decide,
   (C10_cookie_collision_single_removal 5
      { lock_message := false, lock_fd := -1, is_inhibited := 2,
        inhibit_head := [5, 5], use_rand48 := false }
      (by decide) (by decide)).2.1⟩

end Xss
